import Mathlib

/-!
Verification of the Goat-user-new livestock-marketplace backend.

This file shallowly embeds the data model (`models/User.js`, `models/Livestock.js`,
`models/Order.js`, and the internal `ProofHash` / `AdminNotification` schemas of
`server.js`) and the request handlers of the current `server.js` (the version that
includes the proof-hash duplicate detection and the auto-expiry sweep).  The
document database is modelled as lists of records; each handler is a pure function
from the database state and the request data to a response and the new state.
-/

set_option maxHeartbeats 1000000

namespace GoatMarket

/-- A stored binary blob with its MIME content type (mongoose `{ data: Buffer,
contentType: String }`).  Buffers are modelled as lists of bytes. -/
structure Image where
  data : List Nat
  contentType : String
deriving Repr, DecidableEq

/-- A denormalized cart entry (`cartItemSchema` in `models/User.js`): a snapshot
of a livestock item, keyed by the livestock `_id` string. -/
structure CartItem where
  itemId : String
  name : String
  price : Int
  breed : String
  type : String
  selected : Bool
deriving Repr, DecidableEq

/-- A saved shipping address (`addressSchema` in `models/User.js`). -/
structure Address where
  label : String
  name : String
  line1 : String
  line2 : String
  city : String
  state : String
  pincode : String
  phone : String
deriving Repr, DecidableEq

/-- An entry of a user's notification feed, as pushed by the admin reject
handler in `server.js`. -/
structure Notification where
  id : String
  title : String
  message : String
  icon : String
  color : String
  timestamp : Nat
  seen : Bool
deriving Repr, DecidableEq

/-- A stored user (`userSchema` in `models/User.js`).  Document ids are
modelled as naturals. -/
structure User where
  id : Nat
  name : String
  email : String
  password : String
  cart : List CartItem
  wishlist : List String
  addresses : List Address
  notifications : List Notification
  createdAt : Nat
deriving Repr, DecidableEq

/-- A catalog entry (`livestockSchema` in `models/Livestock.js`).  Livestock ids
are the `_id` strings that cart and order item snapshots carry. -/
structure Livestock where
  id : String
  name : String
  type : String
  breed : String
  age : String
  weight : String
  price : Int
  images : List Image
  tags : List String
  status : String
  createdAt : Nat
deriving Repr, DecidableEq

/-- An item snapshot inside an order (`items` sub-schema in `models/Order.js`);
`itemId` is the JS `_id` field referencing the livestock document. -/
structure OrderItem where
  itemId : String
  name : String
  price : Int
  breed : String
  weight : String
deriving Repr, DecidableEq

/-- An order (`orderSchema` in `models/Order.js`).  `rejectionReason` is written
by the reject and reupload handlers in `server.js`. -/
structure Order where
  id : Nat
  customer : String
  userId : Nat
  date : String
  items : List OrderItem
  total : Int
  status : String
  address : Address
  paymentProof : Option Image
  rejectionReason : String
  createdAt : Nat
deriving Repr, DecidableEq

/-- An entry of the secondary unique-hash collection (`proofHashSchema` in
`server.js`): a payment-proof content hash together with the order it was
recorded for. -/
structure ProofHash where
  hash : List Nat
  orderId : Nat
  createdAt : Nat
deriving Repr, DecidableEq

/-- An operator-console message (`adminNotifSchema` in `server.js`). -/
structure AdminNotification where
  message : String
  type : String
  orderId : Option Nat
  read : Bool
  createdAt : Nat
deriving Repr, DecidableEq

/-- The document database: one list per collection, plus fresh-id counters for
the two collections whose ids the handlers generate. -/
structure DB where
  users : List User
  livestock : List Livestock
  orders : List Order
  proofHashes : List ProofHash
  adminNotifs : List AdminNotification
  nextUserId : Nat
  nextOrderId : Nat
deriving Repr, DecidableEq

/-- An HTTP response: status code and message body. -/
structure Resp where
  status : Nat
  message : String
deriving Repr, DecidableEq

/-- The payload `authMiddleware` puts into the request context
(`req.user = { id, email, name }`). -/
structure ReqUser where
  id : Nat
  email : String
  name : String
deriving Repr, DecidableEq

/-- A signed token as produced by `createToken` (`jwt.sign({id, email, name},
JWT_SECRET, {expiresIn: '30m'})`).  The signature is modelled as carrying the
secret it was signed with, and `exp` as an absolute expiry time. -/
structure Token where
  id : Nat
  email : String
  name : String
  sig : String
  exp : Nat
deriving Repr, DecidableEq

/-- Strip leading and trailing whitespace from a character list. -/
def trimChars (l : List Char) : List Char :=
  ((l.dropWhile Char.isWhitespace).reverse.dropWhile Char.isWhitespace).reverse

/-- The mongoose `trim: true` setter of the user schema, implemented over the
character list so it is kernel-executable. -/
def strTrim (s : String) : String :=
  ⟨trimChars s.data⟩

/-- The mongoose `lowercase: true` setter of the user schema, implemented over
the character list so it is kernel-executable. -/
def strToLower (s : String) : String :=
  ⟨s.data.map Char.toLower⟩

/-- Modelled from the spec: the `bcryptjs` hash used by the `pre('save')` hook
of `models/User.js` is an external library; it is abstracted as a deterministic
injective tagging of the plaintext.  The claims depend only on hash equality
and on the hash differing from the plaintext. -/
def bcryptHash (p : String) : String :=
  "$2b$10$" ++ p

/-- `comparePassword` of `models/User.js`: `bcrypt.compare(candidate, stored)`,
abstracted as hashing the candidate and comparing with the stored hash. -/
def comparePassword (stored candidate : String) : Bool :=
  stored == bcryptHash candidate

/-- Modelled from the spec: `getFileHash` in `server.js` is an MD5 digest from
the external `crypto` library; it is abstracted as an injective digest (the
identity on byte lists).  The claims depend only on digest equality. -/
def getFileHash (buffer : List Nat) : List Nat :=
  buffer

/-- `createToken` in `server.js`: signs `{id, email, name}` with the secret,
expiring 30 minutes after issuance. -/
def createToken (secret : String) (now : Nat) (u : User) : Token :=
  { id := u.id, email := u.email, name := u.name, sig := secret
    exp := now + 30 * 60 * 1000 }

/-- `jwt.verify(token, JWT_SECRET)`: succeeds exactly when the signature matches
the secret and the token has not expired, returning the embedded payload. -/
def jwtVerify (secret : String) (now : Nat) (t : Token) : Option ReqUser :=
  if t.sig = secret ∧ now < t.exp then
    some { id := t.id, email := t.email, name := t.name }
  else
    none

/-- `authMiddleware` in `server.js`: 401 when the token cookie is absent, 401
when verification fails, otherwise the decoded id/email/name are placed into
the request context. -/
def authMiddleware (secret : String) (now : Nat) (cookie : Option Token) :
    Except Resp ReqUser :=
  match cookie with
  | none => Except.error { status := 401, message := "Not authenticated" }
  | some t =>
    match jwtVerify secret now t with
    | none => Except.error { status := 401, message := "Invalid or expired token" }
    | some payload => Except.ok payload

/-- One row of the express routing table. -/
structure Route where
  method : String
  path : String
  authGuarded : Bool
deriving Repr, DecidableEq

/-- The routing table of the current `server.js`, in registration order, with
`authGuarded` recording whether `authMiddleware` is attached to the route. -/
def appRoutes : List Route := [
  { method := "GET", path := "/health", authGuarded := false },
  { method := "POST", path := "/api/auth/register", authGuarded := false },
  { method := "POST", path := "/api/auth/login", authGuarded := false },
  { method := "GET", path := "/api/auth/me", authGuarded := true },
  { method := "POST", path := "/api/auth/logout", authGuarded := false },
  { method := "GET", path := "/api/user/state", authGuarded := true },
  { method := "PUT", path := "/api/user/state", authGuarded := true },
  { method := "GET", path := "/api/livestock", authGuarded := false },
  { method := "GET", path := "/api/livestock/image/:livestockId/:imageId", authGuarded := false },
  { method := "GET", path := "/api/livestock/image/:id", authGuarded := false },
  { method := "GET", path := "/api/admin/livestock", authGuarded := false },
  { method := "POST", path := "/api/admin/livestock", authGuarded := false },
  { method := "PUT", path := "/api/admin/livestock/:id", authGuarded := false },
  { method := "DELETE", path := "/api/admin/livestock/:id", authGuarded := false },
  { method := "GET", path := "/api/admin/orders", authGuarded := false },
  { method := "GET", path := "/api/admin/orders/proof/:id", authGuarded := false },
  { method := "PUT", path := "/api/admin/orders/:id/reject", authGuarded := false },
  { method := "PUT", path := "/api/admin/orders/:id", authGuarded := false },
  { method := "GET", path := "/api/admin/users", authGuarded := false },
  { method := "GET", path := "/api/admin/notifications", authGuarded := false },
  { method := "DELETE", path := "/api/admin/notifications/clear", authGuarded := false },
  { method := "GET", path := "/api/orders", authGuarded := true },
  { method := "PUT", path := "/api/orders/:id/reupload", authGuarded := true },
  { method := "POST", path := "/api/orders", authGuarded := true },
  { method := "PUT", path := "/api/orders/:id/cancel", authGuarded := true },
  { method := "GET", path := "/api/orders/:id/invoice", authGuarded := true },
  { method := "POST", path := "/api/payment/create", authGuarded := true },
  { method := "POST", path := "/api/payment/confirm", authGuarded := true },
  { method := "GET", path := "/admin", authGuarded := false },
  { method := "GET", path := "/", authGuarded := false } ]

/-- `Livestock.updateMany({_id: {$in: ids}}, {$set: {status}})`: set the status
of every catalog entry whose id is listed. -/
def setStatusIn (ids : List String) (newStatus : String) (ls : List Livestock) :
    List Livestock :=
  ls.map (fun lv => if lv.id ∈ ids then { lv with status := newStatus } else lv)

/-- The `_id` strings referenced by an order's item snapshots
(`order.items.map(item => item._id)`). -/
def orderItemIds (o : Order) : List String :=
  o.items.map (fun it => it.itemId)

/-- `POST /api/auth/register`: reject when a field is missing, 409 when a user
with the given email already exists, otherwise save a new user (the schema
trims the name, lowercases and trims the email, and the `pre('save')` hook
hashes the password) and set the auth cookie. -/
def register (secret : String) (now : Nat) (name email password : String)
    (db : DB) : Resp × Option Token × DB :=
  if name = "" ∨ email = "" ∨ password = "" then
    ({ status := 400, message := "All fields required" }, none, db)
  else
    match db.users.find? (fun u => u.email == email) with
    | some _ => ({ status := 409, message := "Email already exists" }, none, db)
    | none =>
      let newUser : User :=
        { id := db.nextUserId, name := strTrim name
          email := strToLower (strTrim email)
          password := bcryptHash password, cart := [], wishlist := []
          addresses := [], notifications := [], createdAt := now }
      ({ status := 201, message := "" }, some (createToken secret now newUser),
       { db with users := db.users ++ [newUser], nextUserId := db.nextUserId + 1 })

/-- `POST /api/auth/login`: reject when a field is missing; 400 invalid
credentials when no user carries the email or the password comparison fails;
otherwise issue the auth cookie. -/
def login (secret : String) (now : Nat) (email password : String) (db : DB) :
    Resp × Option Token :=
  if email = "" ∨ password = "" then
    ({ status := 400, message := "Credentials required" }, none)
  else
    match db.users.find? (fun u => u.email == email) with
    | none => ({ status := 400, message := "Invalid credentials" }, none)
    | some u =>
      if comparePassword u.password password then
        ({ status := 200, message := "" }, some (createToken secret now u))
      else
        ({ status := 400, message := "Invalid credentials" }, none)

/-- The notification pushed to the order's owner by
`PUT /api/admin/orders/:id/reject` (the raw request reason is interpolated into
the message, as in the source). -/
def rejNotification (now : Nat) (oid : Nat) (reason : String) : Notification :=
  { id := "rej_" ++ toString now, title := "Order Cancelled"
    message := "Order #" ++ toString oid ++ " rejected: " ++ reason
      ++ ". Items restocked."
    icon := "x-circle", color := "red", timestamp := now, seen := false }

/-- `PUT /api/admin/orders/:id/reject`: 404 when no order matches; otherwise set
the order's status to "Payment Rejected" with a rejection reason (defaulted when
empty), revert the referenced livestock to Available, and push a notification
into the owning user's feed. -/
def adminRejectOrder (now : Nat) (oid : Nat) (reason : String) (db : DB) :
    Resp × DB :=
  match db.orders.find? (fun x => x.id == oid) with
  | none => ({ status := 404, message := "Order not found" }, db)
  | some o =>
    let reasonStored := if reason = "" then "Invalid payment proof." else reason
    let orders := db.orders.map (fun x =>
      if x.id == oid then
        { x with status := "Payment Rejected", rejectionReason := reasonStored }
      else x)
    let livestock := setStatusIn (orderItemIds o) "Available" db.livestock
    let users := db.users.map (fun u =>
      if u.id == o.userId then
        { u with notifications := u.notifications ++ [rejNotification now oid reason] }
      else u)
    ({ status := 200, message := "Order rejected and items returned to stock" },
     { db with orders := orders, livestock := livestock, users := users })

/-- `PUT /api/admin/orders/:id`: unconditional status overwrite (no inventory
effect). -/
def adminUpdateOrderStatus (oid : Nat) (newStatus : String) (db : DB) :
    Resp × DB :=
  ({ status := 200, message := "" },
   { db with orders := db.orders.map (fun x =>
      if x.id == oid then { x with status := newStatus } else x) })

/-- `PUT /api/orders/:id/cancel`: look the order up by id and owner; 404 when
absent, 400 when its status is neither Processing nor Pending; otherwise set it
to Cancelled, revert the referenced livestock to Available and drop its proof
hash. -/
def userCancelOrder (uid : Nat) (oid : Nat) (db : DB) : Resp × DB :=
  match db.orders.find? (fun x => x.id == oid && x.userId == uid) with
  | none => ({ status := 404, message := "Order not found" }, db)
  | some o =>
    if o.status ≠ "Processing" ∧ o.status ≠ "Pending" then
      ({ status := 400, message := "Cannot cancel order" }, db)
    else
      ({ status := 200, message := "Order cancelled & items restocked" },
       { db with
          orders := db.orders.map (fun x =>
            if x.id == o.id then { x with status := "Cancelled" } else x)
          livestock := setStatusIn (orderItemIds o) "Available" db.livestock
          proofHashes := db.proofHashes.eraseP (fun ph => ph.orderId == o.id) })

/-- The 30-minute expiry window of `expireUnpaidOrders`, in milliseconds. -/
def expiryWindowMs : Nat := 30 * 60 * 1000

/-- Whether the sweep considers an order expired: status Pending and created
strictly earlier than thirty minutes before now. -/
def isExpired (now : Nat) (o : Order) : Bool :=
  o.status == "Pending" && decide (o.createdAt + expiryWindowMs < now)

/-- One iteration of the loop body of `expireUnpaidOrders`: cancel the order,
revert its items to Available and record an operator warning. -/
def expireStep (now : Nat) (db : DB) (o : Order) : DB :=
  { db with
    orders := db.orders.map (fun x =>
      if x.id == o.id then { x with status := "Cancelled" } else x)
    livestock := setStatusIn (orderItemIds o) "Available" db.livestock
    adminNotifs := db.adminNotifs ++
      [{ message := "System: Order #" ++ toString o.id ++ " auto-expired."
         type := "warning", orderId := some o.id, read := false, createdAt := now }] }

/-- `expireUnpaidOrders` in `server.js`: find the Pending orders older than the
window, then process each in turn. -/
def expireUnpaidOrders (now : Nat) (db : DB) : DB :=
  (db.orders.filter (isExpired now)).foldl (expireStep now) db

/-- `ProofHash.findOneAndUpdate({orderId}, {hash, orderId}, {upsert: true})`:
overwrite the first record for the order, or append a fresh one. -/
def upsertProofHash (oid : Nat) (h : List Nat) (now : Nat) :
    List ProofHash → List ProofHash
  | [] => [{ hash := h, orderId := oid, createdAt := now }]
  | ph :: rest =>
    if ph.orderId == oid then { ph with hash := h, orderId := oid } :: rest
    else ph :: upsertProofHash oid h now rest

/-- The duplicate test of `PUT /api/orders/:id/reupload`: a hash record exists
and it is recorded for a different order
(`existingProof && existingProof.orderId.toString() !== req.params.id`). -/
def reuploadDuplicate (oid : Nat) (fileHash : List Nat)
    (hashes : List ProofHash) : Bool :=
  match hashes.find? (fun ph => ph.hash == fileHash) with
  | some ph => !(ph.orderId == oid)
  | none => false

/-- The duplicate test of `POST /api/orders`: any record with the file's hash
exists (`if (existingProof) return 400`). -/
def createDuplicate (file : Option Image) (hashes : List ProofHash) : Bool :=
  match file with
  | some f => (hashes.find? (fun ph => ph.hash == getFileHash f.data)).isSome
  | none => false

/-- `PUT /api/orders/:id/reupload`: 400 without a file; 400 duplicate when the
file's hash is recorded for a different order; 404 when the order is absent or
not owned by the requester; otherwise set the order back to Processing with the
new proof, upsert the hash record and notify the operator console. -/
def reuploadProof (now : Nat) (uid : Nat) (oid : Nat) (file : Option Image)
    (db : DB) : Resp × DB :=
  match file with
  | none => ({ status := 400, message := "No file uploaded" }, db)
  | some f =>
    let fileHash := getFileHash f.data
    if reuploadDuplicate oid fileHash db.proofHashes then
      ({ status := 400, message := "Duplicate proof detected!" }, db)
    else
      match db.orders.find? (fun x => x.id == oid && x.userId == uid) with
      | none => ({ status := 404, message := "Order not found" }, db)
      | some o =>
        ({ status := 200, message := "Proof re-uploaded successfully" },
         { db with
            orders := db.orders.map (fun x =>
              if x.id == oid then
                { x with status := "Processing", rejectionReason := ""
                         paymentProof := some f }
              else x)
            proofHashes := upsertProofHash o.id fileHash now db.proofHashes
            adminNotifs := db.adminNotifs ++
              [{ message := "Proof Re-uploaded for Order #" ++ toString o.id
                 type := "info", orderId := some o.id, read := false
                 createdAt := now }] })

/-- `POST /api/orders`: when a proof file is attached, reject if its hash is
already recorded; otherwise save the new order (status defaults to Processing),
record the hash and an operator message when a file was attached, mark the
referenced livestock Sold, and clear the creating user's cart. -/
def createOrder (now : Nat) (uid : Nat) (uname : String) (items : List OrderItem)
    (address : Address) (total : Int) (date : String) (file : Option Image)
    (db : DB) : Resp × DB :=
  if createDuplicate file db.proofHashes then
    ({ status := 400, message := "Duplicate proof detected!" }, db)
  else
    let newOrder : Order :=
      { id := db.nextOrderId, customer := uname, userId := uid, date := date
        items := items, total := total, status := "Processing"
        address := address, paymentProof := file, rejectionReason := ""
        createdAt := now }
    let db1 := { db with orders := db.orders ++ [newOrder]
                         nextOrderId := db.nextOrderId + 1 }
    let db2 : DB :=
      match file with
      | some f =>
        { db1 with
          proofHashes := db1.proofHashes ++
            [{ hash := getFileHash f.data, orderId := newOrder.id, createdAt := now }]
          adminNotifs := db1.adminNotifs ++
            [{ message := "New Order #" ++ toString newOrder.id ++ " Created"
               type := "success", orderId := some newOrder.id, read := false
               createdAt := now }] }
      | none => db1
    ({ status := 201, message := "" },
     { db2 with
        livestock := setStatusIn (items.map (fun it => it.itemId)) "Sold" db2.livestock
        users := db2.users.map (fun u =>
          if u.id == uid then { u with cart := [] } else u) })

/-- `GET /api/orders`: the authenticated user's own orders (the `createdAt` sort
and the `paymentProof.data` projection affect presentation only and are not
modelled). -/
def getOrders (uid : Nat) (db : DB) : List Order :=
  db.orders.filter (fun o => o.userId == uid)

/-- `GET /api/orders/:id/invoice`: 404 when the order is absent, 403 when it is
owned by a different user, otherwise the invoice page. -/
def getInvoice (uid : Nat) (oid : Nat) (db : DB) : Resp :=
  match db.orders.find? (fun x => x.id == oid) with
  | none => { status := 404, message := "Order not found" }
  | some o =>
    if o.userId ≠ uid then { status := 403, message := "Access denied" }
    else { status := 200, message := "invoice" }

/-! ## General helper lemmas -/

/-- `find?` commutes with a map whose function does not change the searched
predicate (used for the by-id updates `findByIdAndUpdate` performs). -/
theorem find?_map_comm {α : Type} (p : α → Bool) (f : α → α)
    (hf : ∀ a, p (f a) = p a) :
    ∀ l : List α, (l.map f).find? p = (l.find? p).map f
  | [] => rfl
  | a :: as => by
    rw [List.map_cons, List.find?_cons, List.find?_cons, hf a]
    cases p a
    · exact find?_map_comm p f hf as
    · rfl

/-- The hash abstraction is injective, hence a hash differs from the plaintext
in length. -/
theorem bcryptHash_injective : Function.Injective bcryptHash := by
  intro a b h
  have hd : ("$2b$10$" ++ a).data = ("$2b$10$" ++ b).data :=
    congrArg String.data h
  rw [String.data_append, String.data_append] at hd
  exact String.ext (List.append_cancel_left hd)

/-- A stored bcrypt hash is never the plaintext it hashes. -/
theorem bcryptHash_ne_plaintext (p : String) : bcryptHash p ≠ p := by
  intro h
  have hlen := congrArg String.length h
  rw [bcryptHash, String.length_append] at hlen
  have h7 : ("$2b$10$" : String).length = 7 := rfl
  rw [h7] at hlen
  omega

/-- Elements of a conditional by-id update that satisfy the condition satisfy
whatever the update establishes (the `updateMany` / `findByIdAndUpdate`
pattern). -/
theorem mem_map_update_prop {α : Type} (P : α → Prop) [DecidablePred P]
    (f : α → α) (Q : α → Prop) (l : List α) (hf : ∀ a, Q (f a)) :
    ∀ x ∈ l.map (fun a => if P a then f a else a), P x → Q x := by
  intro x hx hPx
  obtain ⟨y, _, hEq⟩ := List.mem_map.mp hx
  by_cases h : P y
  · rw [if_pos h] at hEq
    rw [← hEq]
    exact hf y
  · rw [if_neg h] at hEq
    rw [← hEq] at hPx
    exact absurd hPx h

/-- Elements a conditional by-id update does not touch stay in the list
unchanged. -/
theorem mem_map_update_of_not {α : Type} (P : α → Prop) [DecidablePred P]
    (f : α → α) (l : List α) (x : α) (hx : x ∈ l) (hnx : ¬ P x) :
    x ∈ l.map (fun a => if P a then f a else a) :=
  List.mem_map.mpr ⟨x, hx, if_neg hnx⟩

/-! ## C7: registration -/

/-- C7: registering with an email for which a user already exists fails with a
409 conflict and leaves the stored users unchanged; registering with a fresh
email and all of name/email/password present creates exactly one new user (the
saved record carries the trimmed name, normalized email and hashed password). -/
theorem C7_register_unique_email (secret : String) (now : Nat)
    (name email password : String) (db : DB)
    (hn : name ≠ "") (he : email ≠ "") (hp : password ≠ "") :
    ((db.users.find? (fun u => u.email == email)).isSome →
      (register secret now name email password db).1.status = 409 ∧
      (register secret now name email password db).2.2.users = db.users) ∧
    (db.users.find? (fun u => u.email == email) = none →
      (register secret now name email password db).1.status = 201 ∧
      (register secret now name email password db).2.2.users = db.users ++
        [{ id := db.nextUserId, name := strTrim name
           email := strToLower (strTrim email)
           password := bcryptHash password, cart := [], wishlist := []
           addresses := [], notifications := [], createdAt := now }]) := by
  have hcond : ¬(name = "" ∨ email = "" ∨ password = "") := by
    simp [hn, he, hp]
  constructor
  · intro hsome
    obtain ⟨u, hu⟩ := Option.isSome_iff_exists.mp hsome
    simp only [register, hu]
    rw [if_neg hcond]
    exact ⟨rfl, rfl⟩
  · intro hnone
    simp only [register, hnone]
    rw [if_neg hcond]
    exact ⟨rfl, rfl⟩

/-- Witness database for the registration claim: one stored user. -/
def regUser : User :=
  { id := 0, name := "Asha", email := "asha@example.com"
    password := bcryptHash "pw1", cart := [], wishlist := [], addresses := []
    notifications := [], createdAt := 0 }

/-- Witness database holding `regUser`. -/
def regDb : DB :=
  { users := [regUser], livestock := [], orders := [], proofHashes := []
    adminNotifs := [], nextUserId := 1, nextOrderId := 1 }

/-- Concrete check of the registration claim: a duplicate email is refused with
409 without changing the users, and a fresh email appends exactly one user. -/
theorem C7_register_witness :
    (register "s" 5 "Bo" "asha@example.com" "pw2" regDb).1.status = 409 ∧
    (register "s" 5 "Bo" "asha@example.com" "pw2" regDb).2.2.users = regDb.users ∧
    (register "s" 5 "Bo" "bo@example.com" "pw2" regDb).1.status = 201 ∧
    (register "s" 5 "Bo" "bo@example.com" "pw2" regDb).2.2.users = regDb.users ++
      [{ id := 1, name := "Bo", email := "bo@example.com"
         password := bcryptHash "pw2", cart := [], wishlist := []
         addresses := [], notifications := [], createdAt := 5 }] := by
  have h1 := (C7_register_unique_email "s" 5 "Bo" "asha@example.com" "pw2" regDb
    (by decide) (by decide) (by decide)).1 (by rfl)
  have h2 := (C7_register_unique_email "s" 5 "Bo" "bo@example.com" "pw2" regDb
    (by decide) (by decide) (by decide)).2 (by rfl)
  refine ⟨h1.1, h1.2, h2.1, ?_⟩
  rw [h2.2]
  decide

/-! ## C8: login and password hashing -/

/-- C8: for a stored user whose password field is the hash of registration
password `p`, logging in with any `q ≠ p` yields a 400 client error (with the
invalid-credentials message whenever `q` is nonempty) and no auth cookie, while
logging in with `p` succeeds and sets the cookie; the stored field is the hash
of `p` and never the plaintext. -/
theorem C8_login_wrong_password (secret : String) (now : Nat)
    (email p q : String) (db : DB) (u : User)
    (he : email ≠ "") (hp : p ≠ "")
    (hu : db.users.find? (fun x => x.email == email) = some u)
    (hpw : u.password = bcryptHash p) :
    (q ≠ p → (login secret now email q db).1.status = 400 ∧
      (login secret now email q db).2 = none ∧
      (q ≠ "" → (login secret now email q db).1.message = "Invalid credentials")) ∧
    ((login secret now email p db).1.status = 200 ∧
      (login secret now email p db).2 = some (createToken secret now u)) ∧
    u.password = bcryptHash p ∧ u.password ≠ p := by
  refine ⟨?_, ?_, hpw, hpw ▸ bcryptHash_ne_plaintext p⟩
  · intro hq
    by_cases hq0 : q = ""
    · subst hq0
      simp only [login]
      rw [if_pos (by simp)]
      exact ⟨rfl, rfl, fun h => absurd rfl h⟩
    · have hcmp : comparePassword u.password q = false := by
        simp only [comparePassword, hpw, beq_eq_false_iff_ne, ne_eq]
        intro hcontra
        exact hq (bcryptHash_injective hcontra).symm
      simp only [login, hu, hcmp]
      rw [if_neg (by simp [he, hq0])]
      exact ⟨rfl, rfl, fun _ => rfl⟩
  · have hcmp : comparePassword u.password p = true := by
      simp [comparePassword, hpw]
    simp only [login, hu, hcmp]
    rw [if_neg (by simp [he, hp])]
    exact ⟨rfl, rfl⟩

/-- Concrete check of the login claim on `regDb`: the wrong password is
refused without a cookie, the registration password logs in. -/
theorem C8_login_witness :
    (login "s" 9 "asha@example.com" "bad" regDb).1.status = 400 ∧
    (login "s" 9 "asha@example.com" "bad" regDb).2 = none ∧
    (login "s" 9 "asha@example.com" "pw1" regDb).1.status = 200 ∧
    regUser.password ≠ "pw1" := by
  have h := C8_login_wrong_password "s" 9 "asha@example.com" "pw1" "bad" regDb
    regUser (by decide) (by decide) (by rfl) (by rfl)
  exact ⟨(h.1 (by decide)).1, (h.1 (by decide)).2.1, h.2.1.1, h.2.2.2⟩

/-! ## C2: admin reject -/

/-- C2: for every existing order, the admin reject operation answers 200, sets
the order's status to "Payment Rejected", reverts every livestock item
referenced by the order to Available, and pushes a rejection notification into
the owning user's feed; when no order carries the id it answers 404 and leaves
the database unchanged. -/
theorem C2_admin_reject (now : Nat) (oid : Nat) (reason : String) (db : DB)
    (o : Order) (u : User) :
    (db.orders.find? (fun x => x.id == oid) = some o →
      (adminRejectOrder now oid reason db).1.status = 200 ∧
      (∀ x ∈ (adminRejectOrder now oid reason db).2.orders, x.id = oid →
        x.status = "Payment Rejected") ∧
      (∀ lv ∈ (adminRejectOrder now oid reason db).2.livestock,
        lv.id ∈ orderItemIds o → lv.status = "Available") ∧
      (db.users.find? (fun x => x.id == o.userId) = some u →
        (adminRejectOrder now oid reason db).2.users.find?
            (fun x => x.id == o.userId) =
          some { u with notifications :=
            u.notifications ++ [rejNotification now oid reason] })) ∧
    (db.orders.find? (fun x => x.id == oid) = none →
      adminRejectOrder now oid reason db =
        ({ status := 404, message := "Order not found" }, db)) := by
  constructor
  · intro hfind
    simp only [adminRejectOrder, hfind]
    refine ⟨by trivial, ?_, ?_, ?_⟩
    · intro x hx hxid
      exact mem_map_update_prop (fun a => (a.id == oid) = true) _
        (fun a => a.status = "Payment Rejected") db.orders (fun a => rfl)
        x hx (beq_iff_eq.mpr hxid)
    · intro lv hlv hid
      simp only [setStatusIn] at hlv
      exact mem_map_update_prop (fun a => a.id ∈ orderItemIds o) _
        (fun a => a.status = "Available") db.livestock (fun a => rfl)
        lv hlv hid
    · intro hu
      rw [find?_map_comm (fun x => x.id == o.userId)
        (fun v => if v.id == o.userId then
          { v with notifications :=
            v.notifications ++ [rejNotification now oid reason] }
          else v)
        (fun a => by by_cases h : (a.id == o.userId) = true <;> simp [h])
        db.users, hu]
      rw [Option.map_some', if_pos (List.find?_some hu)]
  · intro hnone
    simp only [adminRejectOrder, hnone]

/-- Witness data: an order for livestock item "goat1", owned by user 2. -/
def c2Order : Order :=
  { id := 10, customer := "Asha", userId := 2, date := "2026-01-01"
    items := [{ itemId := "goat1", name := "Goat", price := 100
                breed := "Boer", weight := "30 kg" }]
    total := 100, status := "Processing"
    address := { label := "", name := "Asha", line1 := "1 Farm Rd", line2 := ""
                 city := "Pune", state := "MH", pincode := "411001"
                 phone := "999" }
    paymentProof := none, rejectionReason := "", createdAt := 0 }

/-- Witness data: the owner of `c2Order`. -/
def c2User : User :=
  { id := 2, name := "Asha", email := "asha@example.com"
    password := bcryptHash "pw1", cart := [], wishlist := [], addresses := []
    notifications := [], createdAt := 0 }

/-- Witness data: the sold livestock item referenced by `c2Order`. -/
def c2Goat : Livestock :=
  { id := "goat1", name := "Goat", type := "Goat", breed := "Boer"
    age := "2", weight := "30 kg", price := 100, images := [], tags := []
    status := "Sold", createdAt := 0 }

/-- Witness database for the admin-reject claim. -/
def c2Db : DB :=
  { users := [c2User], livestock := [c2Goat], orders := [c2Order]
    proofHashes := [], adminNotifs := [], nextUserId := 3, nextOrderId := 11 }

/-- Concrete check of the admin-reject claim: rejecting order 10 answers 200,
marks it Payment Rejected, restocks the goat, notifies user 2, and rejecting a
missing order answers 404. -/
theorem C2_admin_reject_witness :
    c2Db.orders.find? (fun x => x.id == 10) = some c2Order ∧
    (adminRejectOrder 3 10 "blurry" c2Db).1.status = 200 ∧
    (∀ x ∈ (adminRejectOrder 3 10 "blurry" c2Db).2.orders, x.id = 10 →
      x.status = "Payment Rejected") ∧
    (adminRejectOrder 3 10 "blurry" c2Db).2.users.find? (fun x => x.id == 2) =
      some { c2User with notifications :=
        c2User.notifications ++ [rejNotification 3 10 "blurry"] } ∧
    adminRejectOrder 3 99 "blurry" c2Db =
      ({ status := 404, message := "Order not found" }, c2Db) := by
  have h := (C2_admin_reject 3 10 "blurry" c2Db c2Order c2User).1 rfl
  exact ⟨rfl, h.1, h.2.1, h.2.2.2 rfl,
    (C2_admin_reject 3 99 "blurry" c2Db c2Order c2User).2 rfl⟩

/-! ## C3: user cancel -/

/-- C3: for an order owned by the requesting user, cancelling answers 200 and
sets the order to Cancelled and every referenced livestock item to Available
when the order is Processing or Pending; for any other status it answers 400
and leaves the whole database unchanged. -/
theorem C3_user_cancel (uid oid : Nat) (db : DB) (o : Order)
    (hfind : db.orders.find? (fun x => x.id == oid && x.userId == uid) =
      some o) :
    ((o.status = "Processing" ∨ o.status = "Pending") →
      (userCancelOrder uid oid db).1.status = 200 ∧
      (∀ x ∈ (userCancelOrder uid oid db).2.orders, x.id = o.id →
        x.status = "Cancelled") ∧
      (∀ lv ∈ (userCancelOrder uid oid db).2.livestock,
        lv.id ∈ orderItemIds o → lv.status = "Available")) ∧
    (o.status ≠ "Processing" → o.status ≠ "Pending" →
      userCancelOrder uid oid db =
        ({ status := 400, message := "Cannot cancel order" }, db)) := by
  constructor
  · intro hs
    simp only [userCancelOrder, hfind]
    rw [if_neg (by rcases hs with h | h <;> simp [h])]
    refine ⟨by trivial, ?_, ?_⟩
    · intro x hx hxid
      exact mem_map_update_prop (fun a => (a.id == o.id) = true) _
        (fun a => a.status = "Cancelled") db.orders (fun a => rfl)
        x hx (beq_iff_eq.mpr hxid)
    · intro lv hlv hid
      simp only [setStatusIn] at hlv
      exact mem_map_update_prop (fun a => a.id ∈ orderItemIds o) _
        (fun a => a.status = "Available") db.livestock (fun a => rfl)
        lv hlv hid
  · intro h1 h2
    simp only [userCancelOrder, hfind]
    rw [if_pos ⟨h1, h2⟩]

/-- Witness database for the cancel claim: `c2Db` plus a Delivered order 12 of
the same user. -/
def c3Delivered : Order :=
  { c2Order with id := 12, status := "Delivered" }

/-- Witness database holding a Processing order 10 and a Delivered order 12. -/
def c3Db : DB :=
  { c2Db with orders := [c2Order, c3Delivered], nextOrderId := 13 }

/-- Concrete check of the cancel claim: user 2 cancelling the Processing order
10 answers 200 and cancels it and restocks the goat; cancelling the Delivered
order 12 answers 400 and changes nothing. -/
theorem C3_user_cancel_witness :
    c3Db.orders.find? (fun x => x.id == 10 && x.userId == 2) = some c2Order ∧
    (userCancelOrder 2 10 c3Db).1.status = 200 ∧
    (∀ x ∈ (userCancelOrder 2 10 c3Db).2.orders, x.id = 10 →
      x.status = "Cancelled") ∧
    (∀ lv ∈ (userCancelOrder 2 10 c3Db).2.livestock, lv.id ∈ ["goat1"] →
      lv.status = "Available") ∧
    userCancelOrder 2 12 c3Db =
      ({ status := 400, message := "Cannot cancel order" }, c3Db) := by
  have h := (C3_user_cancel 2 10 c3Db c2Order rfl).1 (Or.inl rfl)
  exact ⟨rfl, h.1, h.2.1, h.2.2,
    (C3_user_cancel 2 12 c3Db c3Delivered rfl).2
      (by decide) (by decide)⟩

/-! ## C5: duplicate payment-proof detection -/

/-- C5: a proof upload whose content hash is recorded for a different order is
rejected with a 400 client error and changes nothing — both at re-upload and at
order creation (where any recorded hash belongs to an already existing, hence
different, order); a re-upload whose hash is recorded for the same order passes
the duplicate check and succeeds when the order belongs to the requester. -/
theorem C5_duplicate_proof (now uid oid : Nat) (uname : String)
    (items : List OrderItem) (address : Address) (total : Int) (date : String)
    (f : Image) (db : DB) (ph : ProofHash) (o : Order) :
    (db.proofHashes.find? (fun x => x.hash == getFileHash f.data) = some ph →
      ph.orderId ≠ oid →
      reuploadProof now uid oid (some f) db =
        ({ status := 400, message := "Duplicate proof detected!" }, db)) ∧
    (db.proofHashes.find? (fun x => x.hash == getFileHash f.data) = some ph →
      ph.orderId = oid →
      db.orders.find? (fun x => x.id == oid && x.userId == uid) = some o →
      (reuploadProof now uid oid (some f) db).1.status = 200) ∧
    ((db.proofHashes.find? (fun x => x.hash == getFileHash f.data)).isSome →
      createOrder now uid uname items address total date (some f) db =
        ({ status := 400, message := "Duplicate proof detected!" }, db)) := by
  refine ⟨?_, ?_, ?_⟩
  · intro hph hne
    simp only [reuploadProof]
    rw [if_pos (by simp only [reuploadDuplicate, hph]; simpa using hne)]
  · intro hph hsame horder
    simp only [reuploadProof]
    rw [if_neg (by simp only [reuploadDuplicate, hph]; simp [hsame]), horder]
  · intro hsome
    simp only [createOrder]
    rw [if_pos (by simp only [createDuplicate]; exact hsome)]

/-- Witness database for the duplicate-proof claim: order 10 of user 2 with its
proof hash recorded, and a second order 11 of user 2. -/
def c5Db : DB :=
  { c2Db with
    orders := [c2Order, { c2Order with id := 11, status := "Payment Rejected" }]
    proofHashes := [{ hash := [7, 7], orderId := 10, createdAt := 0 }]
    nextOrderId := 12 }

/-- Concrete check of the duplicate-proof claim: re-uploading the hash of order
10's proof onto order 11 is refused without changes, re-uploading it onto order
10 itself succeeds, and creating an order with the same proof is refused. -/
theorem C5_duplicate_proof_witness :
    reuploadProof 4 2 11 (some { data := [7, 7], contentType := "image/png" })
        c5Db =
      ({ status := 400, message := "Duplicate proof detected!" }, c5Db) ∧
    (reuploadProof 4 2 10 (some { data := [7, 7], contentType := "image/png" })
        c5Db).1.status = 200 ∧
    createOrder 4 2 "Asha" [] c2Order.address 0 "2026-01-02"
        (some { data := [7, 7], contentType := "image/png" }) c5Db =
      ({ status := 400, message := "Duplicate proof detected!" }, c5Db) := by
  have h := C5_duplicate_proof 4 2 11 "Asha" [] c2Order.address 0 "2026-01-02"
    { data := [7, 7], contentType := "image/png" } c5Db
    { hash := [7, 7], orderId := 10, createdAt := 0 } c2Order
  have h10 := C5_duplicate_proof 4 2 10 "Asha" [] c2Order.address 0 "2026-01-02"
    { data := [7, 7], contentType := "image/png" } c5Db
    { hash := [7, 7], orderId := 10, createdAt := 0 } c2Order
  exact ⟨h.1 rfl (by decide), h10.2.1 rfl rfl rfl, h.2.2 (by rfl)⟩

/-! ## C6: order creation marks items Sold -/

/-- C6: whenever order creation succeeds (201), every livestock item referenced
in the submitted item list has status Sold in the resulting catalog. -/
theorem C6_create_marks_sold (now uid : Nat) (uname : String)
    (items : List OrderItem) (address : Address) (total : Int) (date : String)
    (file : Option Image) (db : DB)
    (hok : (createOrder now uid uname items address total date file db).1.status
      = 201) :
    ∀ lv ∈ (createOrder now uid uname items address total date file db).2.livestock,
      lv.id ∈ items.map (fun it => it.itemId) → lv.status = "Sold" := by
  by_cases hdup : createDuplicate file db.proofHashes = true
  · exfalso
    simp only [createOrder] at hok
    rw [if_pos hdup] at hok
    simp at hok
  · intro lv hlv hid
    simp only [createOrder] at hlv
    rw [if_neg hdup] at hlv
    simp only [setStatusIn] at hlv
    exact mem_map_update_prop (fun a => a.id ∈ items.map (fun it => it.itemId))
      _ (fun a => a.status = "Sold") _ (fun a => rfl) lv hlv hid

/-- Concrete check of the Sold-marking claim: creating an order for "goat1" on
a database where the goat is Available leaves it Sold. -/
theorem C6_create_marks_sold_witness :
    (createOrder 6 2 "Asha" c2Order.items c2Order.address 100 "2026-01-03" none
      { c2Db with livestock := [{ c2Goat with status := "Available" }] }).1.status
      = 201 ∧
    ∀ lv ∈ (createOrder 6 2 "Asha" c2Order.items c2Order.address 100
        "2026-01-03" none
        { c2Db with livestock := [{ c2Goat with status := "Available" }] }).2.livestock,
      lv.id ∈ c2Order.items.map (fun it => it.itemId) → lv.status = "Sold" :=
  ⟨rfl, C6_create_marks_sold 6 2 "Asha" c2Order.items c2Order.address 100
    "2026-01-03" none
    { c2Db with livestock := [{ c2Goat with status := "Available" }] } rfl⟩

/-! ## C10: order creation clears the cart and nothing else of the user -/

/-- C10: after a successful order creation the creating user's stored record is
exactly the old record with an empty cart — wishlist, addresses and
notifications are untouched. -/
theorem C10_create_clears_cart (now uid : Nat) (uname : String)
    (items : List OrderItem) (address : Address) (total : Int) (date : String)
    (file : Option Image) (db : DB) (u : User)
    (hu : db.users.find? (fun x => x.id == uid) = some u)
    (hok : (createOrder now uid uname items address total date file db).1.status
      = 201) :
    (createOrder now uid uname items address total date file db).2.users.find?
      (fun x => x.id == uid) = some { u with cart := [] } := by
  by_cases hdup : createDuplicate file db.proofHashes = true
  · exfalso
    simp only [createOrder] at hok
    rw [if_pos hdup] at hok
    simp at hok
  · simp only [createOrder]
    rw [if_neg hdup]
    cases file with
    | none =>
      simp only
      rw [find?_map_comm (fun x => x.id == uid)
        (fun v => if v.id == uid then { v with cart := [] } else v)
        (fun a => by by_cases h : (a.id == uid) = true <;> simp [h]) db.users,
        hu, Option.map_some', if_pos (List.find?_some hu)]
    | some f =>
      simp only
      rw [find?_map_comm (fun x => x.id == uid)
        (fun v => if v.id == uid then { v with cart := [] } else v)
        (fun a => by by_cases h : (a.id == uid) = true <;> simp [h]) db.users,
        hu, Option.map_some', if_pos (List.find?_some hu)]

/-- Concrete check of the cart-clearing claim: user 2's record after checkout
is the old record with an empty cart. -/
theorem C10_create_clears_cart_witness :
    (createOrder 6 2 "Asha" c2Order.items c2Order.address 100 "2026-01-03" none
      { c2Db with users := [{ c2User with cart :=
        [{ itemId := "goat1", name := "Goat", price := 100, breed := "Boer"
           type := "Goat", selected := true }] }] }).2.users.find?
      (fun x => x.id == 2) = some { c2User with cart := [] } := by
  have h := C10_create_clears_cart 6 2 "Asha" c2Order.items c2Order.address 100
    "2026-01-03" none
    { c2Db with users := [{ c2User with cart :=
      [{ itemId := "goat1", name := "Goat", price := 100, breed := "Boer"
         type := "Goat", selected := true }] }] }
    { c2User with cart :=
      [{ itemId := "goat1", name := "Goat", price := 100, breed := "Boer"
         type := "Goat", selected := true }] } rfl rfl
  simpa using h

/-! ## C9: user-order scoping -/

/-- Witness/counterexample database for the scoping claim: requester 1, orders
10 and 11 both owned by user 2, and the hash of order 11's proof recorded. -/
def c9Db : DB :=
  { users := [c2User, { c2User with id := 1, email := "b@example.com" }]
    livestock := [c2Goat]
    orders := [c2Order, { c2Order with id := 11 }]
    proofHashes := [{ hash := [7], orderId := 11, createdAt := 0 }]
    adminNotifs := [], nextUserId := 3, nextOrderId := 12 }

/-- C9 counterexample: order 10 exists and is owned by user 2, yet user 1's
proof re-upload onto it fails with the 400 duplicate-proof client error — not
with the claimed not-found error — because the uploaded file's hash is recorded
for order 11 and the duplicate check runs before the ownership lookup. -/
theorem C9_counterexample :
    (∃ o ∈ c9Db.orders, o.id = 10 ∧ o.userId ≠ 1) ∧
    (reuploadProof 0 1 10 (some { data := [7], contentType := "image/png" })
      c9Db).1.status = 400 ∧
    (reuploadProof 0 1 10 (some { data := [7], contentType := "image/png" })
      c9Db).1.message = "Duplicate proof detected!" := by
  refine ⟨by decide, rfl, rfl⟩

/-- C9 as amended: listing is scoped to the requester; cancel on another user's
order answers 404 and changes nothing; proof re-upload on another user's order
answers 404 and changes nothing whenever the uploaded file's hash is not
recorded for a different order, and answers the duplicate-proof client error
(still changing nothing) when it is; the invoice of another user's order
answers 403. -/
theorem C9_user_scoping (uid oid now : Nat) (f : Image) (db : DB) (o : Order)
    (hids : (db.orders.map (fun x => x.id)).Nodup)
    (ho : o ∈ db.orders) (hoid : o.id = oid) (hother : o.userId ≠ uid) :
    (∀ x ∈ getOrders uid db, x.userId = uid) ∧
    userCancelOrder uid oid db =
      ({ status := 404, message := "Order not found" }, db) ∧
    (∀ ph, db.proofHashes.find? (fun x => x.hash == getFileHash f.data) =
        some ph → ph.orderId ≠ oid →
      reuploadProof now uid oid (some f) db =
        ({ status := 400, message := "Duplicate proof detected!" }, db)) ∧
    ((∀ ph, db.proofHashes.find? (fun x => x.hash == getFileHash f.data) =
        some ph → ph.orderId = oid) →
      reuploadProof now uid oid (some f) db =
        ({ status := 404, message := "Order not found" }, db)) ∧
    getInvoice uid oid db = { status := 403, message := "Access denied" } := by
  have hnone : db.orders.find? (fun x => x.id == oid && x.userId == uid) =
      none := by
    rw [List.find?_eq_none]
    intro a ha
    simp only [Bool.and_eq_true, beq_iff_eq, not_and]
    intro haid
    have haeq : a = o :=
      List.inj_on_of_nodup_map hids ha ho (by rw [haid, hoid])
    rw [haeq]
    exact hother
  refine ⟨?_, ?_, ?_, ?_, ?_⟩
  · intro x hx
    simp only [getOrders] at hx
    exact beq_iff_eq.mp (List.mem_filter.mp hx).2
  · simp only [userCancelOrder, hnone]
  · intro ph hph hne
    simp only [reuploadProof]
    rw [if_pos (by simp only [reuploadDuplicate, hph]; simpa using hne)]
  · intro hsame
    have hdup : reuploadDuplicate oid (getFileHash f.data) db.proofHashes =
        false := by
      simp only [reuploadDuplicate]
      cases hfind : db.proofHashes.find? (fun x => x.hash == getFileHash f.data)
        with
      | none => rfl
      | some ph => simp [hsame ph hfind]
    simp only [reuploadProof]
    rw [if_neg (by simp [hdup]), hnone]
  · have hfound : db.orders.find? (fun x => x.id == oid) = some o := by
      have hsome : (db.orders.find? (fun x => x.id == oid)).isSome := by
        rw [List.find?_isSome]
        exact ⟨o, ho, by simp [hoid]⟩
      obtain ⟨y, hy⟩ := Option.isSome_iff_exists.mp hsome
      have hymem : y ∈ db.orders := List.mem_of_find?_eq_some hy
      have hyid := List.find?_some hy
      simp only [beq_iff_eq] at hyid
      have : y = o := List.inj_on_of_nodup_map hids hymem ho
        (hyid.trans hoid.symm)
      rw [hy, this]
    simp only [getInvoice, hfound]
    rw [if_pos hother]

/-- Concrete check of the amended scoping claim on `c9Db`: user 1's cancel on
user 2's order 10 answers exactly 404 without changes; a re-upload whose hash
`[9]` is recorded nowhere answers exactly 404 without changes; a re-upload
whose hash `[7]` is recorded for the different order 11 answers exactly the
duplicate-proof 400 without changes; the invoice answers 403. -/
theorem C9_user_scoping_witness :
    userCancelOrder 1 10 c9Db =
      ({ status := 404, message := "Order not found" }, c9Db) ∧
    reuploadProof 0 1 10 (some { data := [9], contentType := "image/png" })
        c9Db =
      ({ status := 404, message := "Order not found" }, c9Db) ∧
    reuploadProof 0 1 10 (some { data := [7], contentType := "image/png" })
        c9Db =
      ({ status := 400, message := "Duplicate proof detected!" }, c9Db) ∧
    getInvoice 1 10 c9Db = { status := 403, message := "Access denied" } := by
  have h9 := C9_user_scoping 1 10 0 { data := [9], contentType := "image/png" }
    c9Db c2Order (by decide) (by decide) rfl (by decide)
  have h7 := C9_user_scoping 1 10 0 { data := [7], contentType := "image/png" }
    c9Db c2Order (by decide) (by decide) rfl (by decide)
  refine ⟨h9.2.1, h9.2.2.2.1 ?_, h7.2.2.1
    { hash := [7], orderId := 11, createdAt := 0 } rfl (by decide),
    h9.2.2.2.2⟩
  intro ph hph
  exact Option.noConfusion hph

/-! ## C1: the authentication guard and the routing table -/

/-- Whether a route path belongs to the admin API (kernel-executable prefix
test). -/
def isAdminPath (p : String) : Bool :=
  "/api/admin".data.isPrefixOf p.data

/-- C1 counterexample: it is not the case that every admin route is guarded by
the token check — in fact the order-moderation route is registered with no
`authMiddleware` at all. -/
theorem C1_counterexample :
    ¬ (∀ r ∈ appRoutes, isAdminPath r.path = true → r.authGuarded = true) := by
  intro h
  have hmem : Route.mk "PUT" "/api/admin/orders/:id/reject" false ∈ appRoutes := by
    decide
  have := h _ hmem (by decide)
  simp at this

/-- C1 as amended: the auth guard itself behaves as claimed — it rejects with
401 when the cookie is absent or verification fails and otherwise places the
token's id/email/name into the request context — and it is attached to the
user-facing authenticated routes; but none of the admin endpoints is subject
to it. -/
theorem C1_auth_guard (secret : String) (now : Nat) (t : Token) (p : ReqUser) :
    authMiddleware secret now none =
      Except.error { status := 401, message := "Not authenticated" } ∧
    (jwtVerify secret now t = none →
      authMiddleware secret now (some t) =
        Except.error { status := 401, message := "Invalid or expired token" }) ∧
    (jwtVerify secret now t = some p →
      authMiddleware secret now (some t) = Except.ok p ∧
      p.id = t.id ∧ p.email = t.email ∧ p.name = t.name) ∧
    (∀ r ∈ appRoutes, isAdminPath r.path = true → r.authGuarded = false) ∧
    (∀ r ∈ appRoutes, r.authGuarded = true →
      r.path = "/api/auth/me" ∨ r.path = "/api/user/state" ∨
      r.path = "/api/orders" ∨ r.path = "/api/orders/:id/reupload" ∨
      r.path = "/api/orders/:id/cancel" ∨ r.path = "/api/orders/:id/invoice" ∨
      r.path = "/api/payment/create" ∨ r.path = "/api/payment/confirm") := by
  refine ⟨rfl, ?_, ?_, by decide, by decide⟩
  · intro hv
    simp only [authMiddleware, hv]
  · intro hv
    refine ⟨by simp only [authMiddleware, hv], ?_⟩
    simp only [jwtVerify] at hv
    by_cases hc : t.sig = secret ∧ now < t.exp
    · rw [if_pos hc] at hv
      obtain rfl := Option.some_injective _ hv.symm
      exact ⟨rfl, rfl, rfl⟩
    · rw [if_neg hc] at hv
      exact absurd hv (by simp)

/-- Concrete check of the auth-guard claim: a missing cookie and a token signed
with the wrong secret are rejected with 401, a valid unexpired token passes
with its payload extracted. -/
theorem C1_auth_guard_witness :
    authMiddleware "s" 5 none =
      Except.error { status := 401, message := "Not authenticated" } ∧
    authMiddleware "s" 5
        (some { id := 1, email := "e", name := "n", sig := "x", exp := 9 }) =
      Except.error { status := 401, message := "Invalid or expired token" } ∧
    authMiddleware "s" 5
        (some { id := 1, email := "e", name := "n", sig := "s", exp := 9 }) =
      Except.ok { id := 1, email := "e", name := "n" } := by
  have h1 := C1_auth_guard "s" 5
    { id := 1, email := "e", name := "n", sig := "x", exp := 9 }
    { id := 1, email := "e", name := "n" }
  have h2 := C1_auth_guard "s" 5
    { id := 1, email := "e", name := "n", sig := "s", exp := 9 }
    { id := 1, email := "e", name := "n" }
  exact ⟨h1.1, h1.2.1 (by decide), (h2.2.2.1 (by decide)).1⟩

/-! ## C4: the expiry sweep -/

/-- Invariant: every stored order carrying the id is Cancelled. -/
def ordersCancelled (i : Nat) (db : DB) : Prop :=
  ∀ x ∈ db.orders, x.id = i → x.status = "Cancelled"

/-- Invariant: every catalog entry among the ids is Available. -/
def livestockAvailable (ids : List String) (db : DB) : Prop :=
  ∀ lv ∈ db.livestock, lv.id ∈ ids → lv.status = "Available"

/-- Invariant: an operator message exists for the order. -/
def adminNotifFor (i : Nat) (db : DB) : Prop :=
  ∃ n ∈ db.adminNotifs, n.orderId = some i

/-- A sweep iteration never un-cancels an order. -/
theorem expireStep_keeps_ordersCancelled (now i : Nat) (db : DB) (y : Order)
    (h : ordersCancelled i db) : ordersCancelled i (expireStep now db y) := by
  intro x hx hxi
  simp only [expireStep] at hx
  obtain ⟨z, hz, hEq⟩ := List.mem_map.mp hx
  by_cases hc : (z.id == y.id) = true
  · rw [if_pos hc] at hEq
    rw [← hEq]
  · rw [if_neg hc] at hEq
    rw [← hEq]
    exact h z hz (by rw [hEq]; exact hxi)

/-- A sweep iteration never takes a catalog entry out of Available. -/
theorem expireStep_keeps_livestockAvailable (now : Nat) (ids : List String)
    (db : DB) (y : Order) (h : livestockAvailable ids db) :
    livestockAvailable ids (expireStep now db y) := by
  intro lv hlv hin
  simp only [expireStep, setStatusIn] at hlv
  obtain ⟨z, hz, hEq⟩ := List.mem_map.mp hlv
  by_cases hc : z.id ∈ orderItemIds y
  · rw [if_pos hc] at hEq
    rw [← hEq]
  · rw [if_neg hc] at hEq
    rw [← hEq]
    exact h z hz (by rw [hEq]; exact hin)

/-- A sweep iteration keeps every operator message. -/
theorem expireStep_keeps_adminNotif (now i : Nat) (db : DB) (y : Order)
    (h : adminNotifFor i db) : adminNotifFor i (expireStep now db y) := by
  obtain ⟨n, hn, hni⟩ := h
  exact ⟨n, List.mem_append_left _ hn, hni⟩

/-- An invariant preserved by every iteration on a member of the worklist is
preserved by the whole fold. -/
theorem foldl_expire_keeps (now : Nat) (P : DB → Prop) :
    ∀ l : List Order, (∀ db y, y ∈ l → P db → P (expireStep now db y)) →
      ∀ db : DB, P db → P (l.foldl (expireStep now) db)
  | [], _, _, h => h
  | y :: l, hstep, db, h =>
    foldl_expire_keeps now P l
      (fun d z hz hP => hstep d z (List.mem_cons_of_mem y hz) hP)
      (expireStep now db y) (hstep db y (List.mem_cons_self y l) h)

/-- An invariant established by processing `y0` and preserved by the other
iterations holds after folding any worklist containing `y0`. -/
theorem foldl_expire_establishes (now : Nat) (P : DB → Prop) (y0 : Order) :
    ∀ l : List Order, (∀ db y, y ∈ l → P db → P (expireStep now db y)) →
      (∀ db : DB, P (expireStep now db y0)) →
      ∀ db : DB, y0 ∈ l → P (l.foldl (expireStep now) db)
  | [], _, _, _, hmem => absurd hmem (List.not_mem_nil y0)
  | y :: l, hstep, hest, db, hmem => by
    rcases List.mem_cons.mp hmem with h | h
    · subst h
      exact foldl_expire_keeps now P l
        (fun d z hz hP => hstep d z (List.mem_cons_of_mem y0 hz) hP)
        (expireStep now db y0) (hest db)
    · exact foldl_expire_establishes now P y0 l
        (fun d z hz hP => hstep d z (List.mem_cons_of_mem y hz) hP) hest
        (expireStep now db y) h

/-- Processing `y0` cancels every stored order carrying `y0.id`. -/
theorem expireStep_establishes_cancel (now : Nat) (db : DB) (y0 : Order) :
    ordersCancelled y0.id (expireStep now db y0) := by
  intro x hx hxi
  simp only [expireStep] at hx
  exact mem_map_update_prop (fun a => (a.id == y0.id) = true) _
    (fun a => a.status = "Cancelled") db.orders (fun a => rfl) x hx
    (beq_iff_eq.mpr hxi)

/-- Processing `y0` reverts every catalog entry it references to Available. -/
theorem expireStep_establishes_available (now : Nat) (db : DB) (y0 : Order) :
    livestockAvailable (orderItemIds y0) (expireStep now db y0) := by
  intro lv hlv hin
  simp only [expireStep, setStatusIn] at hlv
  exact mem_map_update_prop (fun a => a.id ∈ orderItemIds y0) _
    (fun a => a.status = "Available") db.livestock (fun a => rfl) lv hlv hin

/-- Processing `y0` records an operator message for it. -/
theorem expireStep_establishes_notif (now : Nat) (db : DB) (y0 : Order) :
    adminNotifFor y0.id (expireStep now db y0) := by
  refine ⟨_, List.mem_append_right _ (List.mem_singleton_self _), rfl⟩

/-- C4: a run of the sweep cancels every Pending order strictly older than the
30-minute window, reverts every livestock item such an order references to
Available and records an operator message for it; every order that is not
Pending or not older than the window is left in the table unchanged. -/
theorem C4_expiry_sweep (now : Nat) (db : DB)
    (hids : (db.orders.map (fun x => x.id)).Nodup) :
    (∀ o ∈ db.orders, o.status = "Pending" →
      o.createdAt + expiryWindowMs < now →
      ordersCancelled o.id (expireUnpaidOrders now db) ∧
      livestockAvailable (orderItemIds o) (expireUnpaidOrders now db) ∧
      adminNotifFor o.id (expireUnpaidOrders now db)) ∧
    (∀ o ∈ db.orders,
      ¬ (o.status = "Pending" ∧ o.createdAt + expiryWindowMs < now) →
      o ∈ (expireUnpaidOrders now db).orders) := by
  constructor
  · intro o ho hpend hold
    have hmem : o ∈ db.orders.filter (isExpired now) :=
      List.mem_filter.mpr ⟨ho, by simp [isExpired, hpend, hold]⟩
    refine ⟨?_, ?_, ?_⟩
    · exact foldl_expire_establishes now (ordersCancelled o.id) o _
        (fun d y _ h => expireStep_keeps_ordersCancelled now o.id d y h)
        (fun d => expireStep_establishes_cancel now d o) db hmem
    · exact foldl_expire_establishes now (livestockAvailable (orderItemIds o))
        o _
        (fun d y _ h => expireStep_keeps_livestockAvailable now _ d y h)
        (fun d => expireStep_establishes_available now d o) db hmem
    · exact foldl_expire_establishes now (adminNotifFor o.id) o _
        (fun d y _ h => expireStep_keeps_adminNotif now o.id d y h)
        (fun d => expireStep_establishes_notif now d o) db hmem
  · intro o ho hnot
    refine foldl_expire_keeps now (fun d => o ∈ d.orders) _ ?_ db ho
    intro d y hy hP
    have hyexp : isExpired now y = true := List.of_mem_filter hy
    have hymem : y ∈ db.orders := List.mem_of_mem_filter hy
    have hne : ¬ ((o.id == y.id) = true) := by
      intro hbeq
      have : o = y := List.inj_on_of_nodup_map hids ho hymem (beq_iff_eq.mp hbeq)
      subst this
      rw [isExpired] at hyexp
      simp only [Bool.and_eq_true, beq_iff_eq, decide_eq_true_eq] at hyexp
      exact hnot hyexp
    simp only [expireStep]
    exact mem_map_update_of_not (fun a => (a.id == y.id) = true) _ d.orders o
      hP hne

/-- Witness data: a stale Pending order 20 and a fresh Pending order 21. -/
def c4Stale : Order :=
  { c2Order with id := 20, status := "Pending", createdAt := 0 }

/-- Witness data: a fresh Pending order that must survive the sweep. -/
def c4Fresh : Order :=
  { c2Order with
    id := 21, status := "Pending", createdAt := 1900000, items := [] }

/-- Witness database for the sweep claim. -/
def c4Db : DB :=
  { c2Db with orders := [c4Stale, c4Fresh], nextOrderId := 22 }

/-- Concrete check of the sweep claim at time 2000000: the stale order is
cancelled with its goat restocked and an operator message, the fresh order
survives untouched. -/
theorem C4_expiry_sweep_witness :
    ordersCancelled 20 (expireUnpaidOrders 2000000 c4Db) ∧
    livestockAvailable ["goat1"] (expireUnpaidOrders 2000000 c4Db) ∧
    adminNotifFor 20 (expireUnpaidOrders 2000000 c4Db) ∧
    c4Fresh ∈ (expireUnpaidOrders 2000000 c4Db).orders := by
  have h := C4_expiry_sweep 2000000 c4Db (by decide)
  have h1 := h.1 c4Stale (by decide) rfl (by decide)
  exact ⟨h1.1, h1.2.1, h1.2.2,
    h.2 c4Fresh (by decide) (by decide)⟩

end GoatMarket
